import Mathlib

/-!
Shallow embedding of the stock-valuation service in src/main.py.

Modelling conventions:
- Python floats are modelled as rationals (the source only performs field
  arithmetic, max, and rounding to two decimals; no claim depends on binary
  floating-point artefacts).
- The external market-data provider (yfinance) is modelled as an oracle
  function from a ticker string to either a raised error, an empty/falsy
  record, or an info record with optional fields; the source treats its
  fields through dict.get with defaults, which Option captures.
- The HTTP 404 raised by the evaluate endpoint is modelled as the error
  branch of an Except Nat result.
- Python round(x, 2) is modelled as floor(100 * x + 1/2) / 100; no claim
  depends on the tie-breaking convention.
-/

/-- Resolver output: the dict built at the end of get_stock_data_sync,
with the same keys. -/
structure StockData where
  symbol : String
  name : String
  current_price : ℚ
  future_eps : ℚ
  target_mean : ℚ
  beta : ℚ
  ebitda : ℚ
  total_debt : ℚ
  total_cash : ℚ
  shares : ℚ
  currency : String
  deriving Repr, DecidableEq

/-- The JSON record returned by the evaluate endpoint.  The wacc field is
the percentage value round(wacc_val * 100, 2); the source wraps this number
in a percent string. -/
structure ValuationResult where
  symbol : String
  name : String
  current_price : ℚ
  target : ℚ
  analyst_target : ℚ
  pe : ℚ
  ev : ℚ
  dcf : ℚ
  wacc : ℚ
  currency : String
  data_source : String
  deriving Repr, DecidableEq

/-- Python round(x, 2): round to two decimal places. -/
def round2 (x : ℚ) : ℚ := ((⌊x * 100 + 1 / 2⌋ : ℤ) : ℚ) / 100

/-- The ind_map dict of main.py (lines 73-80): industry label to
(pe, growth), where pe depends on the domestic flag is_tw. -/
def ind_map (is_tw : Bool) : List (String × (ℚ × ℚ)) :=
  [ (("科技"), ((if !is_tw then 25 else 18 : ℚ), 4 / 100)),
    (("醫療"), ((if !is_tw then 22 else 20 : ℚ), 3 / 100)),
    (("金融"), ((if !is_tw then 12 else 10 : ℚ), 2 / 100)),
    (("能源"), ((if !is_tw then 10 else 8 : ℚ), 2 / 100)),
    (("消費"), ((if !is_tw then 18 else 15 : ℚ), 3 / 100)),
    (("工業"), ((if !is_tw then 15 else 12 : ℚ), 25 / 1000)) ]

/-- ind_map.get(industry, ind_map of the technology key) of line 81: the
default pair written out is exactly the technology entry of ind_map. -/
def ind_lookup (is_tw : Bool) (industry : String) : ℚ × ℚ :=
  match (ind_map is_tw).lookup industry with
  | some p => p
  | none => ((if !is_tw then 25 else 18 : ℚ), 4 / 100)

/-- Lines 84-85: rf = 0.015 if domestic else 0.042, and
wacc = max(rf + beta * 0.055, 0.05). -/
def wacc_val (is_tw : Bool) (beta : ℚ) : ℚ :=
  max ((if is_tw then 15 / 1000 else 42 / 1000) + beta * (55 / 1000)) (5 / 100)

/-- The domestic-market test of line 70. -/
def is_tw_of (d : StockData) : Bool := d.currency == ("TWD")

/-- The industry pair selected by evaluate for a given snapshot. -/
def ind_of (d : StockData) (industry : String) : ℚ × ℚ :=
  ind_lookup (is_tw_of d) industry

/-- The wacc computed by evaluate for a given snapshot. -/
def wacc_of (d : StockData) : ℚ := wacc_val (is_tw_of d) d.beta

/-- Line 89: P/E estimate. -/
def v_pe_of (d : StockData) (industry : String) : ℚ :=
  if 0 < d.future_eps then d.future_eps * (ind_of d industry).1 else 0

/-- Lines 92-95: EV/EBITDA estimate. -/
def v_ev_of (d : StockData) : ℚ :=
  if 0 < d.ebitda ∧ 0 < d.shares then
    (d.ebitda * 12 - d.total_debt + d.total_cash) / d.shares
  else 0

/-- Line 98: single-stage DCF estimate. -/
def v_dcf_of (d : StockData) (industry : String) : ℚ :=
  if 0 < d.future_eps then
    d.future_eps * (1 + (ind_of d industry).2) /
      max (wacc_of d - (ind_of d industry).2) (15 / 1000)
  else 0

/-- Line 101: analyst target estimate. -/
def v_analyst_of (d : StockData) : ℚ := d.target_mean

/-- The four-element list [v_pe, v_ev, v_dcf, v_analyst] of line 104. -/
def estimates (d : StockData) (industry : String) : List ℚ :=
  [v_pe_of d industry, v_ev_of d, v_dcf_of d industry, v_analyst_of d]

/-- Line 104: the strictly positive estimates. -/
def valid_vals (d : StockData) (industry : String) : List ℚ :=
  (estimates d industry).filter (fun v => decide (0 < v))

/-- Line 105: mean of the positive estimates, falling back to the current
price when none is positive. -/
def final_target (d : StockData) (industry : String) : ℚ :=
  if valid_vals d industry = [] then d.current_price
  else (valid_vals d industry).sum / ((valid_vals d industry).length : ℚ)

/-- Lines 61-119: the evaluate endpoint, acting on the resolver output
(data is none when resolution failed). -/
def evaluate (data : Option StockData) (industry : String) :
    Except Nat ValuationResult :=
  match data with
  | none => Except.error 404
  | some d =>
    if d.current_price = 0 then Except.error 404
    else
      Except.ok
        { symbol := d.symbol
          name := d.name
          current_price := round2 d.current_price
          target := round2 (final_target d industry)
          analyst_target := round2 (v_analyst_of d)
          pe := round2 (v_pe_of d industry)
          ev := round2 (v_ev_of d)
          dcf := round2 (v_dcf_of d industry)
          wacc := round2 (wacc_of d * 100)
          currency := if is_tw_of d then ("NT$") else ("$")
          data_source := ("Yahoo Finance (Global)") }

/-- An info record of the external data source; every field may be absent
(dict.get with a default in the source). -/
structure Info where
  symbol : Option String
  shortName : Option String
  currentPrice : Option ℚ
  regularMarketPrice : Option ℚ
  forwardEps : Option ℚ
  trailingEps : Option ℚ
  targetMeanPrice : Option ℚ
  beta : Option ℚ
  ebitda : Option ℚ
  totalDebt : Option ℚ
  totalCash : Option ℚ
  sharesOutstanding : Option ℚ
  currency : Option String
  deriving Repr, DecidableEq

/-- Outcome of one oracle query: a raised error, a falsy (empty) record,
or an info record. -/
abbrev FetchOutcome := Except Unit (Option Info)

/-- Python a or b for a numeric a that may be absent: absent and 0 are
falsy. -/
def pyOr (a : Option ℚ) (b : ℚ) : ℚ :=
  match a with
  | some x => if x = 0 then b else x
  | none => b

/-- Python str.strip: drop leading and trailing whitespace.  Written as
structural list operations on the characters so that concrete inputs
evaluate by kernel reduction. -/
def pyStrip (s : String) : String :=
  ⟨((s.data.dropWhile (fun c => c.isWhitespace)).reverse.dropWhile
      (fun c => c.isWhitespace)).reverse⟩

/-- Python str.upper, character by character. -/
def pyUpper (s : String) : String := ⟨s.data.map Char.toUpper⟩

/-- Python str.isdigit: nonempty and all characters digits. -/
def is_digit_str (s : String) : Bool :=
  !s.data.isEmpty && s.data.all Char.isDigit

/-- Lines 18-23: candidate symbols, .TW then .TWO for a numeric ticker,
the raw ticker alone otherwise. -/
def search_tickers (raw : String) : List String :=
  if is_digit_str raw then [raw ++ (".TW"), raw ++ (".TWO")] else [raw]

/-- The usability check of line 34: the record is truthy and has a
currentPrice or regularMarketPrice key; a raised error (line 38) is a
miss. -/
def usable : FetchOutcome → Option Info
  | Except.error _ => none
  | Except.ok none => none
  | Except.ok (some i) =>
    if i.currentPrice.isSome || i.regularMarketPrice.isSome then some i
    else none

/-- The candidate loop of lines 29-39: first candidate whose query yields
a usable record, together with that record. -/
def firstUsable (oracle : String → FetchOutcome) :
    List String → Option (String × Info)
  | [] => none
  | t :: rest =>
    match usable (oracle t) with
    | some i => some (t, i)
    | none => firstUsable oracle rest

/-- Lines 44-56: the snapshot dict built from the accepted record. -/
def mkStockData (final_ticker : String) (i : Info) : StockData :=
  { symbol := pyUpper (i.symbol.getD final_ticker)
    name := i.shortName.getD ("")
    current_price := pyOr i.currentPrice (i.regularMarketPrice.getD 0)
    future_eps := pyOr i.forwardEps (i.trailingEps.getD 0)
    target_mean := i.targetMeanPrice.getD 0
    beta := i.beta.getD 1
    ebitda := i.ebitda.getD 0
    total_debt := i.totalDebt.getD 0
    total_cash := i.totalCash.getD 0
    shares := i.sharesOutstanding.getD 1
    currency := i.currency.getD ("USD") }

/-- Lines 12-59: the resolver, parameterised by the data-source oracle. -/
def get_stock_data_sync (oracle : String → FetchOutcome)
    (ticker_str : String) : Option StockData :=
  let raw := pyUpper (pyStrip ticker_str)
  match firstUsable oracle (search_tickers raw) with
  | none => none
  | some (t, i) => some (mkStockData t i)

/-! Concrete sample data used by the example claim and by witnesses. -/

/-- The spec's worked example snapshot: a domestic (TWD) stock with
futureEps 10, beta 1, no ebitda and no analyst target, price 100. -/
def sampleTW : StockData :=
  { symbol := ("2330.TW")
    name := ("")
    current_price := 100
    future_eps := 10
    target_mean := 0
    beta := 1
    ebitda := 0
    total_debt := 0
    total_cash := 0
    shares := 1
    currency := ("TWD") }

/-- The result evaluate returns on sampleTW with the financial industry. -/
def sampleResultTW : ValuationResult :=
  { symbol := ("2330.TW")
    name := ("")
    current_price := 100
    target := 152
    analyst_target := 0
    pe := 100
    ev := 0
    dcf := 204
    wacc := 7
    currency := ("NT$")
    data_source := ("Yahoo Finance (Global)") }

/-- Shared computation: evaluate on the worked example. -/
lemma eval_sampleTW :
    evaluate (some sampleTW) ("金融") = Except.ok sampleResultTW := by
  simp [evaluate, sampleTW, sampleResultTW, final_target, valid_vals,
    estimates, v_pe_of, v_ev_of, v_dcf_of, v_analyst_of, ind_of, wacc_of,
    wacc_val, is_tw_of, ind_lookup, ind_map, round2, List.lookup, List.filter,
    max_def]
  norm_num [Int.floor_eq_iff]

/-- C1: on the snapshot with currency TWD, futureEps 10, beta 1, ebitda 0,
targetMeanPrice 0 and currentPrice 100, with the financial industry entry
(the source keys it by its Chinese label), evaluate selects the domestic
branch with peMultiple 10 and growth 0.02, computes wacc 0.07, v_pe 100,
v_dcf 204, v_ev 0, v_analyst 0, and returns blendedTarget 152. -/
theorem c1_financial_tw_example :
    is_tw_of sampleTW = true ∧
    ind_lookup true ("金融") = (10, 2 / 100) ∧
    wacc_val true 1 = 7 / 100 ∧
    v_pe_of sampleTW ("金融") = 100 ∧
    v_dcf_of sampleTW ("金融") = 204 ∧
    v_ev_of sampleTW = 0 ∧
    v_analyst_of sampleTW = 0 ∧
    final_target sampleTW ("金融") = 152 ∧
    evaluate (some sampleTW) ("金融") = Except.ok sampleResultTW := by
  refine ⟨rfl, by simp [ind_lookup, ind_map, List.lookup], by
    norm_num [wacc_val, max_def], ?_, ?_, by simp [v_ev_of, sampleTW], rfl, ?_,
    eval_sampleTW⟩
  · simp [v_pe_of, ind_of, is_tw_of, ind_lookup, ind_map, List.lookup, sampleTW]
    norm_num
  · simp [v_dcf_of, ind_of, wacc_of, wacc_val, is_tw_of, ind_lookup, ind_map,
      List.lookup, sampleTW, max_def]
    norm_num
  · simp [final_target, valid_vals, estimates, v_pe_of, v_ev_of, v_dcf_of,
      v_analyst_of, ind_of, wacc_of, wacc_val, is_tw_of, ind_lookup, ind_map,
      List.lookup, sampleTW, max_def, List.filter]
    norm_num

/-- C9: evaluate is deterministic; identical snapshot and industry inputs
produce identical results. -/
theorem c9_deterministic (d1 d2 : Option StockData) (i1 i2 : String)
    (hd : d1 = d2) (hi : i1 = i2) : evaluate d1 i1 = evaluate d2 i2 := by
  rw [hd, hi]

/-- Witness for C9 at the worked example. -/
theorem c9_deterministic_witness :
    evaluate (some sampleTW) ("金融") = evaluate (some sampleTW) ("金融") :=
  c9_deterministic (some sampleTW) (some sampleTW) ("金融") ("金融") rfl rfl

/-- C3: evaluate computes wacc as max(rf + beta * 0.055, 0.05) with
rf 0.015 for TWD and 0.042 otherwise; the wacc is therefore at least 0.05
for every beta, and beta -10 with rf 0.042 yields exactly 0.05; the wacc
field of a successful result is the rounded percentage of this value. -/
theorem c3_wacc_formula (d : StockData) :
    wacc_of d =
      max ((if d.currency == ("TWD") then 15 / 1000 else 42 / 1000)
        + d.beta * (55 / 1000)) (5 / 100) ∧
    5 / 100 ≤ wacc_of d ∧
    wacc_val false (-10) = 5 / 100 ∧
    (∀ industry r, evaluate (some d) industry = Except.ok r →
      r.wacc = round2 (wacc_of d * 100)) := by
  refine ⟨rfl, le_max_right _ _, by norm_num [wacc_val, max_def], ?_⟩
  intro industry r h
  simp only [evaluate] at h
  split at h
  · exact absurd h (by simp)
  · cases h
    rfl

/-- Witness for C3 at the worked example. -/
theorem c3_wacc_formula_witness :
    sampleResultTW.wacc = round2 (wacc_of sampleTW * 100) :=
  (c3_wacc_formula sampleTW).2.2.2 ("金融") sampleResultTW eval_sampleTW

/-- C4: the EV/EBITDA estimate is (ebitda * 12 - totalDebt + totalCash) /
sharesOutstanding when ebitda and sharesOutstanding are positive, else 0;
the ev field of a successful result is this estimate rounded. -/
theorem c4_ev_formula (d : StockData) :
    v_ev_of d =
      (if 0 < d.ebitda ∧ 0 < d.shares then
        (d.ebitda * 12 - d.total_debt + d.total_cash) / d.shares
      else 0) ∧
    (∀ industry r, evaluate (some d) industry = Except.ok r →
      r.ev = round2 (v_ev_of d)) := by
  refine ⟨rfl, ?_⟩
  intro industry r h
  simp only [evaluate] at h
  split at h
  · exact absurd h (by simp)
  · cases h
    rfl

/-- Witness for C4 at the worked example. -/
theorem c4_ev_formula_witness :
    sampleResultTW.ev = round2 (v_ev_of sampleTW) :=
  (c4_ev_formula sampleTW).2 ("金融") sampleResultTW eval_sampleTW

/-- C5: the DCF estimate is futureEps * (1 + growth) / max(wacc - growth,
0.015) when futureEps is positive and 0 otherwise, and the divisor is at
least 0.015, hence strictly positive, for every snapshot and industry. -/
theorem c5_dcf_formula (d : StockData) (industry : String) :
    v_dcf_of d industry =
      (if 0 < d.future_eps then
        d.future_eps * (1 + (ind_of d industry).2) /
          max (wacc_of d - (ind_of d industry).2) (15 / 1000)
      else 0) ∧
    15 / 1000 ≤ max (wacc_of d - (ind_of d industry).2) (15 / 1000) ∧
    0 < max (wacc_of d - (ind_of d industry).2) (15 / 1000) ∧
    (∀ r, evaluate (some d) industry = Except.ok r →
      r.dcf = round2 (v_dcf_of d industry)) := by
  refine ⟨rfl, le_max_right _ _,
    lt_of_lt_of_le (by norm_num) (le_max_right _ _), ?_⟩
  intro r h
  simp only [evaluate] at h
  split at h
  · exact absurd h (by simp)
  · cases h
    rfl

/-- Witness for C5 at the worked example. -/
theorem c5_dcf_formula_witness :
    sampleResultTW.dcf = round2 (v_dcf_of sampleTW ("金融")) :=
  (c5_dcf_formula sampleTW ("金融")).2.2.2 sampleResultTW eval_sampleTW

/-- C8: evaluate returns the 404 error exactly when the snapshot is absent
or its current price is 0, and a zero-price snapshot is treated identically
to an absent one. -/
theorem c8_notfound_iff (data : Option StockData) (industry : String) :
    (evaluate data industry = Except.error 404 ↔
      data = none ∨ ∃ d, data = some d ∧ d.current_price = 0) ∧
    (∀ d, data = some d → d.current_price = 0 →
      evaluate data industry = evaluate none industry) := by
  constructor
  · cases data with
    | none => simp [evaluate]
    | some d => by_cases h : d.current_price = 0 <;> simp [evaluate, h]
  · intro d hd h0
    subst hd
    simp [evaluate, h0]

/-- A zero-price variant of the sample snapshot. -/
def sampleZero : StockData := { sampleTW with current_price := 0 }

/-- Witness for C8 at a zero-price snapshot. -/
theorem c8_notfound_iff_witness :
    evaluate (some sampleZero) ("金融") = evaluate none ("金融") :=
  (c8_notfound_iff (some sampleZero) ("金融")).2 sampleZero rfl rfl

/-- C2: for a snapshot with positive current price, evaluate succeeds and
its target is the rounded blended value; the blended value before rounding
is the arithmetic mean of the strictly positive estimates, and equals the
current price when no estimate is strictly positive. -/
theorem c2_blended_mean (d : StockData) (industry : String)
    (h : 0 < d.current_price) :
    (∃ r, evaluate (some d) industry = Except.ok r ∧
      r.target = round2 (final_target d industry)) ∧
    (valid_vals d industry ≠ [] →
      final_target d industry =
        (valid_vals d industry).sum / ((valid_vals d industry).length : ℚ)) ∧
    (v_pe_of d industry ≤ 0 → v_ev_of d ≤ 0 → v_dcf_of d industry ≤ 0 →
      v_analyst_of d ≤ 0 → final_target d industry = d.current_price) := by
  refine ⟨?_, ?_, ?_⟩
  · simp only [evaluate, h.ne', if_false]
    exact ⟨_, rfl, rfl⟩
  · intro hne
    simp [final_target, hne]
  · intro h1 h2 h3 h4
    have hnil : valid_vals d industry = [] := by
      simp only [valid_vals, estimates]
      rw [List.filter_eq_nil_iff]
      intro a ha
      simp only [decide_eq_true_eq]
      fin_cases ha
      · exact not_lt.mpr h1
      · exact not_lt.mpr h2
      · exact not_lt.mpr h3
      · exact not_lt.mpr h4
    simp [final_target, hnil]

/-- Witness for C2 at the worked example. -/
theorem c2_blended_mean_witness :
    (0 : ℚ) < sampleTW.current_price ∧
    (∃ r, evaluate (some sampleTW) ("金融") = Except.ok r ∧
      r.target = round2 (final_target sampleTW ("金融"))) :=
  ⟨by norm_num [sampleTW],
    (c2_blended_mean sampleTW ("金融") (by norm_num [sampleTW])).1⟩

/-- C10: a successful evaluate always has a strictly positive blended
value before rounding, and a nonpositive EV/EBITDA estimate is excluded
from the blend, so it never lowers the blended target. -/
theorem c10_positive_target (d : StockData) (industry : String)
    (h : 0 < d.current_price) :
    0 < final_target d industry ∧
    (v_ev_of d ≤ 0 →
      valid_vals d industry =
        [v_pe_of d industry, v_dcf_of d industry, v_analyst_of d].filter
          (fun v => decide (0 < v))) := by
  constructor
  · by_cases hnil : valid_vals d industry = []
    · simpa [final_target, hnil] using h
    · have hpos : ∀ x ∈ valid_vals d industry, 0 < x := by
        intro x hx
        simp only [valid_vals] at hx
        exact of_decide_eq_true (List.mem_filter.mp hx).2
      have hsum : 0 < (valid_vals d industry).sum :=
        List.sum_pos _ hpos hnil
      have hlen : (0 : ℚ) < ((valid_vals d industry).length : ℚ) := by
        exact_mod_cast List.length_pos.mpr hnil
      simp only [final_target, hnil, if_false]
      exact div_pos hsum hlen
  · intro hev
    have hb : decide ((0 : ℚ) < v_ev_of d) = false :=
      decide_eq_false (not_lt.mpr hev)
    simp [valid_vals, estimates, List.filter_cons, hb]

/-- Witness for C10 at the worked example (its ebitda is 0, so its
EV/EBITDA estimate is nonpositive). -/
theorem c10_positive_target_witness :
    0 < final_target sampleTW ("金融") ∧
    valid_vals sampleTW ("金融") =
      [v_pe_of sampleTW ("金融"), v_dcf_of sampleTW ("金融"),
        v_analyst_of sampleTW].filter (fun v => decide (0 < v)) :=
  ⟨(c10_positive_target sampleTW ("金融") (by norm_num [sampleTW])).1,
    (c10_positive_target sampleTW ("金融") (by norm_num [sampleTW])).2
      (by norm_num [v_ev_of, sampleTW])⟩

/-- Helper: when the candidate loop finds no usable record, every
candidate was unusable. -/
lemma firstUsable_eq_none (oracle : String → FetchOutcome) :
    ∀ l : List String, firstUsable oracle l = none →
      ∀ t ∈ l, usable (oracle t) = none := by
  intro l
  induction l with
  | nil =>
    intro _ t ht
    cases ht
  | cons a as ih =>
    intro h t ht
    simp only [firstUsable] at h
    cases hu : usable (oracle a) with
    | some i =>
      rw [hu] at h
      cases h
    | none =>
      rw [hu] at h
      rcases List.mem_cons.mp ht with rfl | hmem
      · exact hu
      · exact ih h t hmem

/-- C6: a purely numeric normalized input yields exactly the two domestic
candidates, primary suffix first, and a usable first candidate resolves
immediately regardless of the second; a non-numeric normalized input
yields exactly one unsuffixed candidate. -/
theorem c6_candidate_order (oracle : String → FetchOutcome)
    (ticker_str : String) :
    (is_digit_str (pyUpper (pyStrip ticker_str)) = true →
      search_tickers (pyUpper (pyStrip ticker_str)) =
        [pyUpper (pyStrip ticker_str) ++ (".TW"),
         pyUpper (pyStrip ticker_str) ++ (".TWO")] ∧
      (∀ i, usable (oracle (pyUpper (pyStrip ticker_str) ++ (".TW"))) =
          some i →
        get_stock_data_sync oracle ticker_str =
          some (mkStockData (pyUpper (pyStrip ticker_str) ++ (".TW")) i))) ∧
    (is_digit_str (pyUpper (pyStrip ticker_str)) = false →
      search_tickers (pyUpper (pyStrip ticker_str)) =
        [pyUpper (pyStrip ticker_str)]) := by
  constructor
  · intro hd
    refine ⟨by simp [search_tickers, hd], ?_⟩
    intro i hi
    simp [get_stock_data_sync, search_tickers, hd, firstUsable, hi]
  · intro hd
    simp [search_tickers, hd]

/-- C7: a candidate whose query raises is skipped, resolution fails only
when every candidate is unusable, and an erroring first domestic candidate
followed by a usable second one resolves to the second. -/
theorem c7_error_swallowed (oracle : String → FetchOutcome)
    (ticker_str : String) :
    (∀ t rest, oracle t = Except.error () →
      firstUsable oracle (t :: rest) = firstUsable oracle rest) ∧
    (get_stock_data_sync oracle ticker_str = none →
      ∀ t ∈ search_tickers (pyUpper (pyStrip ticker_str)),
        usable (oracle t) = none) ∧
    (∀ i, is_digit_str (pyUpper (pyStrip ticker_str)) = true →
      oracle (pyUpper (pyStrip ticker_str) ++ (".TW")) = Except.error () →
      usable (oracle (pyUpper (pyStrip ticker_str) ++ (".TWO"))) = some i →
      get_stock_data_sync oracle ticker_str =
        some (mkStockData (pyUpper (pyStrip ticker_str) ++ (".TWO")) i)) := by
  refine ⟨?_, ?_, ?_⟩
  · intro t rest he
    simp [firstUsable, he, usable]
  · intro hnone
    have hfu : firstUsable oracle
        (search_tickers (pyUpper (pyStrip ticker_str))) = none := by
      simp only [get_stock_data_sync] at hnone
      cases hcase : firstUsable oracle
          (search_tickers (pyUpper (pyStrip ticker_str))) with
      | none => rfl
      | some p =>
        rw [hcase] at hnone
        cases hnone
    exact firstUsable_eq_none oracle _ hfu
  · intro i hd he hu
    have h1 : usable (oracle (pyUpper (pyStrip ticker_str) ++ (".TW"))) =
        none := by
      rw [he]
      rfl
    simp [get_stock_data_sync, search_tickers, hd, firstUsable, h1, hu]

/-- A usable info record for the primary domestic candidate. -/
def sampleInfoTW : Info :=
  { symbol := some ("2330.TW")
    shortName := some ("TSMC")
    currentPrice := some 100
    regularMarketPrice := none
    forwardEps := some 10
    trailingEps := none
    targetMeanPrice := none
    beta := some 1
    ebitda := none
    totalDebt := none
    totalCash := none
    sharesOutstanding := some 1
    currency := some ("TWD") }

/-- The same record listed under the secondary suffix. -/
def sampleInfoTWO : Info := { sampleInfoTW with symbol := some ("2330.TWO") }

/-- An oracle succeeding only on the primary domestic candidate. -/
def oracleFirstHit : String → FetchOutcome :=
  fun t => if t == ("2330.TW") then Except.ok (some sampleInfoTW)
    else Except.error ()

/-- An oracle erroring on the primary domestic candidate and succeeding on
the secondary one. -/
def oracleSecondHit : String → FetchOutcome :=
  fun t => if t == ("2330.TWO") then Except.ok (some sampleInfoTWO)
    else Except.error ()

/-- Witness for C6 on the numeric ticker 2330 and the non-numeric ticker
AAPL. -/
theorem c6_candidate_order_witness :
    search_tickers (pyUpper (pyStrip ("2330"))) =
      [pyUpper (pyStrip ("2330")) ++ (".TW"),
       pyUpper (pyStrip ("2330")) ++ (".TWO")] ∧
    get_stock_data_sync oracleFirstHit ("2330") =
      some (mkStockData (pyUpper (pyStrip ("2330")) ++ (".TW"))
        sampleInfoTW) ∧
    search_tickers (pyUpper (pyStrip ("AAPL"))) =
      [pyUpper (pyStrip ("AAPL"))] :=
  ⟨((c6_candidate_order oracleFirstHit ("2330")).1 (by decide)).1,
   ((c6_candidate_order oracleFirstHit ("2330")).1 (by decide)).2
     sampleInfoTW (by decide),
   (c6_candidate_order oracleFirstHit ("AAPL")).2 (by decide)⟩

/-- Witness for C7: the first candidate errors, the second succeeds. -/
theorem c7_error_swallowed_witness :
    get_stock_data_sync oracleSecondHit ("2330") =
      some (mkStockData (pyUpper (pyStrip ("2330")) ++ (".TWO"))
        sampleInfoTWO) :=
  (c7_error_swallowed oracleSecondHit ("2330")).2.2 sampleInfoTWO
    (by decide) (by rfl) (by decide)
